import Mathlib

/-!
Verification development for the lazy-library repository (two Python source
files: `notion_loader.py` and `scanner.py`).

The embedding is shallow: JSON-like Python values become the inductive
`PyVal`; the Python dictionary/list/string operations the adapters perform
(`in`, `[...]`, `.get`, `', '.join`, `.split`, `.strip`) become small Lean
functions returning `Except PyErr _`, where `PyErr` stands for the Python
exception that the corresponding operation would raise.  Network traffic is
modelled by an oracle `Nat → NetOutcome` giving, per attempt, either a
`requests` exception or a `(status, body)` response.
-/

/-- A Python / JSON value as it appears in the adapters' responses. -/
inductive PyVal : Type where
  | none : PyVal
  | str : String → PyVal
  | int : Int → PyVal
  | list : List PyVal → PyVal
  | dict : List (String × PyVal) → PyVal

/-- The Python exceptions the embedded operations can raise.
`requestException` stands for `requests.exceptions.RequestException`
(timeout / connection error). -/
inductive PyErr : Type where
  | indexError : PyErr
  | keyError : PyErr
  | typeError : PyErr
  | attributeError : PyErr
  | requestException : PyErr
deriving DecidableEq

/-- Python truthiness (`bool(v)`): `None`, `""`, `0`, `[]`, `{}` are falsy. -/
def pyTruthy : PyVal → Bool
  | .none => false
  | .str s => !(s == "")
  | .int n => !(n == 0)
  | .list xs => !xs.isEmpty
  | .dict kvs => !kvs.isEmpty

/-- Python `a or b`: `a` when truthy, else `b`. -/
def pyOr (a b : PyVal) : PyVal :=
  if pyTruthy a then a else b

/-- Python `k in v`.  Dicts test key membership, lists test element
equality against the string, strings test substring; other receivers raise
`TypeError`. -/
def pyContains (k : String) (v : PyVal) : Except PyErr Bool :=
  match v with
  | .dict kvs => .ok (kvs.lookup k).isSome
  | .list xs => .ok (xs.any fun x => match x with | .str s => s == k | _ => false)
  | .str s => .ok (decide (k.data <:+: s.data))
  | _ => .error .typeError

/-- Python `v[k]` with a string key: dict lookup (`KeyError` when absent);
lists and strings reject string indices with `TypeError`. -/
def pySubscriptKey (v : PyVal) (k : String) : Except PyErr PyVal :=
  match v with
  | .dict kvs =>
    match kvs.lookup k with
    | some x => .ok x
    | Option.none => .error .keyError
  | _ => .error .typeError

/-- Python `v[i]` with an integer index: list/str indexing (`IndexError`
when out of range); our dicts are string-keyed so an integer key raises
`KeyError`; other receivers raise `TypeError`. -/
def pySubscriptIdx (v : PyVal) (i : Nat) : Except PyErr PyVal :=
  match v with
  | .list xs =>
    match xs.get? i with
    | some x => .ok x
    | Option.none => .error .indexError
  | .str s =>
    match s.data.get? i with
    | some c => .ok (.str (Char.toString c))
    | Option.none => .error .indexError
  | .dict _ => .error .keyError
  | _ => .error .typeError

/-- Python `v.get(k, dflt)`: only dicts have `.get`; anything else raises
`AttributeError`. -/
def pyGet (v : PyVal) (k : String) (dflt : PyVal) : Except PyErr PyVal :=
  match v with
  | .dict kvs => .ok ((kvs.lookup k).getD dflt)
  | _ => .error .attributeError

/-- Extract the strings of a list of values; fails when an element is not a
string (Python `str.join` raises `TypeError` there). -/
def asStrings : List PyVal → Option (List String)
  | [] => some []
  | .str s :: rest => (asStrings rest).map fun ss => s :: ss
  | _ => Option.none

/-- Python `sep.join(v)`: lists of strings join their elements, a string
joins its characters, a dict joins its keys; other arguments raise
`TypeError` (as does a list with a non-string element). -/
def pyJoin (sep : String) (v : PyVal) : Except PyErr PyVal :=
  match v with
  | .list xs =>
    match asStrings xs with
    | some ss => .ok (.str (String.intercalate sep ss))
    | Option.none => .error .typeError
  | .str s => .ok (.str (String.intercalate sep (s.data.map Char.toString)))
  | .dict kvs => .ok (.str (String.intercalate sep (kvs.map Prod.fst)))
  | _ => .error .typeError

/-- Python `s.strip()`: drop leading and trailing whitespace. -/
def pyStrip (s : String) : String :=
  String.mk (((s.data.dropWhile Char.isWhitespace).reverse.dropWhile Char.isWhitespace).reverse)

/-- Worker for Python `s.split(',')`: accumulate the current piece
(reversed) and cut at every comma. -/
def splitCommaAux : List Char → List Char → List String
  | [], acc => [String.mk acc.reverse]
  | c :: rest, acc =>
    if c == ',' then String.mk acc.reverse :: splitCommaAux rest []
    else splitCommaAux rest (c :: acc)

/-- Python `s.split(',')`: split on every comma; `''.split(',') == ['']`. -/
def pySplitComma (s : String) : List String :=
  splitCommaAux s.data []

/-- The per-source record both adapters return: the Python dict with keys
`Title`, `Authors`, `Cover URL`, `Categories`, `Page Count` (called
PartialRecord by the spec). -/
structure SourceRecord : Type where
  title : PyVal
  authors : PyVal
  coverUrl : PyVal
  categories : PyVal
  pageCount : PyVal

/-- The all-`None` record each adapter falls back to
(`{'Title': None, 'Authors': None, ...}`). -/
def emptyRecord : SourceRecord :=
  ⟨.none, .none, .none, .none, .none⟩

/-- One network attempt's outcome: a raised `RequestException`, or a
response with a status code and a JSON body. -/
inductive NetOutcome : Type where
  | exn : NetOutcome
  | resp : Nat → PyVal → NetOutcome

/-- The constant network oracle (same outcome on every attempt). -/
def constNet (o : NetOutcome) : Nat → NetOutcome := fun _ => o

/-- `', '.join(x.get('name', '') for x in xs)`, first phase: collect each
element's `name` value (`AttributeError` on a non-dict element). -/
def namesOf : List PyVal → Except PyErr (List PyVal)
  | [] => .ok []
  | a :: rest =>
    match pyGet a "name" (.str "") with
    | .error e => .error e
    | .ok n =>
      match namesOf rest with
      | .error e => .error e
      | .ok ns => .ok (n :: ns)

/-- Open Library's duck-typed normalization, used verbatim for both the
`authors` and the `subjects` field (the source duplicates the identical
logic): `if v and isinstance(v[0], dict): ', '.join(item.get('name', '')
for item in v) else: ', '.join(v)`.  (Python's lazy generator would
interleave the two error kinds on exotic mixed inputs; on all successful
inputs the result is identical.) -/
def olNames (v : PyVal) : Except PyErr PyVal :=
  if pyTruthy v then
    match pySubscriptIdx v 0 with
    | .error e => .error e
    | .ok first =>
      match first with
      | .dict _ =>
        match v with
        | .list xs =>
          match namesOf xs with
          | .error e => .error e
          | .ok names => pyJoin ", " (.list names)
        | _ => .error .typeError
      | _ => pyJoin ", " v
  else pyJoin ", " v

/-- The body-processing of `fetch_from_google_books` once a 200 response
arrived (identical in both source files): `'items' in data`, then
`data['items'][0]['volumeInfo']` and the five `.get`/`join` extractions.
`.ok (some r)` models the `return {...}` inside the `if`; `.ok Option.none`
models falling through to the `break`/final return. -/
def gbExtract (data : PyVal) : Except PyErr (Option SourceRecord) :=
  match pyContains "items" data with
  | .error e => .error e
  | .ok false => .ok Option.none
  | .ok true =>
    match pySubscriptKey data "items" with
    | .error e => .error e
    | .ok items =>
      match pySubscriptIdx items 0 with
      | .error e => .error e
      | .ok first =>
        match pySubscriptKey first "volumeInfo" with
        | .error e => .error e
        | .ok volume_info =>
          match pyGet volume_info "title" .none with
          | .error e => .error e
          | .ok title =>
            match pyGet volume_info "authors" (.list []) with
            | .error e => .error e
            | .ok authorsRaw =>
              match pyJoin ", " authorsRaw with
              | .error e => .error e
              | .ok authors =>
                match pyGet volume_info "imageLinks" (.dict []) with
                | .error e => .error e
                | .ok imageLinks =>
                  match pyGet imageLinks "thumbnail" .none with
                  | .error e => .error e
                  | .ok cover_url =>
                    match pyGet volume_info "categories" (.list []) with
                    | .error e => .error e
                    | .ok categoriesRaw =>
                      match pyJoin ", " categoriesRaw with
                      | .error e => .error e
                      | .ok categories =>
                        match pyGet volume_info "pageCount" .none with
                        | .error e => .error e
                        | .ok page_count =>
                          .ok (some ⟨title, authors, cover_url, categories, page_count⟩)

/-- The body-processing of `fetch_from_open_library` once a 200 response
arrived (identical in both source files): `key = f'ISBN:{isbn}'`,
`key in data`, then `data[key]` and the `.get`/normalize extractions. -/
def olExtract (isbn : String) (data : PyVal) : Except PyErr (Option SourceRecord) :=
  match pyContains ("ISBN:" ++ isbn) data with
  | .error e => .error e
  | .ok false => .ok Option.none
  | .ok true =>
    match pySubscriptKey data ("ISBN:" ++ isbn) with
    | .error e => .error e
    | .ok book_data =>
      match pyGet book_data "title" .none with
      | .error e => .error e
      | .ok title =>
        match pyGet book_data "authors" (.list []) with
        | .error e => .error e
        | .ok authors_list =>
          match olNames authors_list with
          | .error e => .error e
          | .ok authors =>
            match pyGet book_data "cover" (.dict []) with
            | .error e => .error e
            | .ok coverDict =>
              match pyGet coverDict "medium" .none with
              | .error e => .error e
              | .ok cover_url =>
                match pyGet book_data "subjects" (.list []) with
                | .error e => .error e
                | .ok subjects_list =>
                  match olNames subjects_list with
                  | .error e => .error e
                  | .ok subjects =>
                    match pyGet book_data "number_of_pages" .none with
                    | .error e => .error e
                    | .ok page_count =>
                      .ok (some ⟨title, authors, cover_url, subjects, page_count⟩)

/-- Trace of one adapter call in `notion_loader.py`: the result (an
uncaught exception or the returned record), the number of `requests.get`
calls made, the `time.sleep` durations, and the number of
"Attempt ... failed" messages printed. -/
structure FetchTrace : Type where
  result : Except PyErr SourceRecord
  calls : Nat
  sleeps : List Nat
  logged : Nat

/-- The `for attempt in range(3): try ... except RequestException` loop of
`notion_loader.py`, shared by both adapters (the source duplicates it).
On an exception: log, `time.sleep(2)`, next attempt.  On a response:
status 200 with extraction returning a record returns it; any other
non-raising outcome executes `break`; after the loop (or a break) the
all-`None` record is returned.  An extraction exception (not a
`RequestException`) is not caught. -/
def retryLoop (extract : PyVal → Except PyErr (Option SourceRecord))
    (net : Nat → NetOutcome) : Nat → Nat → FetchTrace
  | _, 0 => ⟨.ok emptyRecord, 0, [], 0⟩
  | attempt, fuel + 1 =>
    match net attempt with
    | .exn =>
      let t := retryLoop extract net (attempt + 1) fuel
      ⟨t.result, t.calls + 1, 2 :: t.sleeps, t.logged + 1⟩
    | .resp status body =>
      if status == 200 then
        match extract body with
        | .ok (some r) => ⟨.ok r, 1, [], 0⟩
        | .ok Option.none => ⟨.ok emptyRecord, 1, [], 0⟩
        | .error e => ⟨.error e, 1, [], 0⟩
      else ⟨.ok emptyRecord, 1, [], 0⟩

/-- `fetch_from_google_books` of `notion_loader.py` (the batch entry
point, with the 3-attempt retry loop). -/
def fetch_from_google_books_loader (net : Nat → NetOutcome) : FetchTrace :=
  retryLoop gbExtract net 0 3

/-- `fetch_from_open_library` of `notion_loader.py` (the batch entry
point, with the 3-attempt retry loop). -/
def fetch_from_open_library_loader (isbn : String) (net : Nat → NetOutcome) : FetchTrace :=
  retryLoop (olExtract isbn) net 0 3

/-- A single un-retried adapter call as in `scanner.py`: one
`requests.get` with no `try`/`except`, so a `RequestException` propagates;
a non-200 status or a missing top-level key falls through to the
all-`None` return. -/
def scanFetch (extract : PyVal → Except PyErr (Option SourceRecord))
    (o : NetOutcome) : FetchTrace :=
  match o with
  | .exn => ⟨.error .requestException, 1, [], 0⟩
  | .resp status body =>
    if status == 200 then
      match extract body with
      | .ok (some r) => ⟨.ok r, 1, [], 0⟩
      | .ok Option.none => ⟨.ok emptyRecord, 1, [], 0⟩
      | .error e => ⟨.error e, 1, [], 0⟩
    else ⟨.ok emptyRecord, 1, [], 0⟩

/-- `fetch_from_google_books` of `scanner.py` (the interactive entry
point: single call, no retry). -/
def fetch_from_google_books_scanner (o : NetOutcome) : FetchTrace :=
  scanFetch gbExtract o

/-- `fetch_from_open_library` of `scanner.py` (the interactive entry
point: single call, no retry). -/
def fetch_from_open_library_scanner (isbn : String) (o : NetOutcome) : FetchTrace :=
  scanFetch (olExtract isbn) o

/-- `merge_book_data(isbn, google_data, open_library_data)`, identical in
both source files.  The result is the Python dict literal, kept as an
association list to preserve key order; each field is the
`google or open_library or 'N/A'` chain. -/
def merge_book_data (isbn : String) (google_data open_library_data : SourceRecord) :
    List (String × PyVal) :=
  [ ("ISBN", .str isbn),
    ("Title", pyOr google_data.title (pyOr open_library_data.title (.str "N/A"))),
    ("Authors", pyOr google_data.authors (pyOr open_library_data.authors (.str "N/A"))),
    ("Cover URL", pyOr google_data.coverUrl (pyOr open_library_data.coverUrl (.str "N/A"))),
    ("Categories/Subjects",
      pyOr google_data.categories (pyOr open_library_data.categories (.str "N/A"))),
    ("Page Count", pyOr google_data.pageCount (pyOr open_library_data.pageCount (.str "N/A"))) ]

/-- `read_isbns_from_file`: strip every line, drop the blank ones, then
`list(set(...))`.  The file is modelled as its list of lines.  Python's set
iteration order is arbitrary; `List.dedup` (keep the first occurrence) is
one admissible enumeration — all claims about the result are
order-insensitive or explicitly order-free. -/
def read_isbns_from_file (lines : List String) : List String :=
  ((lines.map pyStrip).filter fun s => s ≠ "").dedup

/-- `fetch_books_data(isbns)`: for each isbn call both `notion_loader.py`
adapters and append the merged record.  An uncaught extraction exception in
an adapter propagates and aborts the loop, hence the `Except`. -/
def fetch_books_data (gNet oNet : String → Nat → NetOutcome) :
    List String → Except PyErr (List (List (String × PyVal)))
  | [] => .ok []
  | isbn :: rest =>
    match (fetch_from_google_books_loader (gNet isbn)).result with
    | .error e => .error e
    | .ok google_data =>
      match (fetch_from_open_library_loader isbn (oNet isbn)).result with
      | .error e => .error e
      | .ok open_library_data =>
        match fetch_books_data gNet oNet rest with
        | .error e => .error e
        | .ok restRecords => .ok (merge_book_data isbn google_data open_library_data :: restRecords)

/-- Python dict `d[k]` on the merged record (`KeyError` when absent). -/
def dictGetItem (d : List (String × PyVal)) (k : String) : Except PyErr PyVal :=
  match d.lookup k with
  | some v => .ok v
  | Option.none => .error .keyError

/-- The Notion page payload built by `create_notion_page`, reduced to the
data-carrying parts of the fixed schema: the content of the single
`title`/`rich_text` elements, the `multi_select` tag objects, the `number`
field (`Option.none` encodes JSON `null`), the fixed status name, and the
optional external cover reference. -/
structure NotionPayload : Type where
  titleRichText : PyVal
  authorsRichText : PyVal
  categoryTags : List PyVal
  pageNumber : Option Int
  isbnRichText : PyVal
  statusName : String
  cover : Option PyVal

/-- The payload construction of `create_notion_page(. . ., book_data)`
(the outbound POST itself is an external collaborator).  Field accesses
are Python `book_data[...]`; the categories value is split on `','`, each
piece `.strip()`ed into a `{"name": ...}` tag object; the page count is a
`number` only via `isinstance(..., int)`; the cover is attached only when
`book_data['Cover URL'] and book_data['Cover URL'] != 'N/A'`. -/
def create_notion_page (book_data : List (String × PyVal)) : Except PyErr NotionPayload :=
  match dictGetItem book_data "Title" with
  | .error e => .error e
  | .ok title =>
    match dictGetItem book_data "Authors" with
    | .error e => .error e
    | .ok authors =>
      match dictGetItem book_data "Categories/Subjects" with
      | .error e => .error e
      | .ok cats =>
        match cats with
        | .str s =>
          match dictGetItem book_data "Page Count" with
          | .error e => .error e
          | .ok page_count =>
            match dictGetItem book_data "ISBN" with
            | .error e => .error e
            | .ok isbnVal =>
              match dictGetItem book_data "Cover URL" with
              | .error e => .error e
              | .ok coverVal =>
                .ok
                  { titleRichText := title
                    authorsRichText := authors
                    categoryTags :=
                      (pySplitComma s).map fun c => .dict [("name", .str (pyStrip c))]
                    pageNumber := match page_count with | .int n => some n | _ => Option.none
                    isbnRichText := isbnVal
                    statusName := "To be read"
                    cover :=
                      if pyTruthy coverVal &&
                          !(match coverVal with | .str s' => s' == "N/A" | _ => false) then
                        some coverVal
                      else Option.none }
        | _ => .error .attributeError

/-- The publish loop of `process_isbns_and_update_notion`: for each row of
the fetched table, build the payload, POST it (the network is the
`publish` oracle, returning `(status_code, response_json)`), and print one
success/failure line.  Each log entry records the row's `ISBN` value, the
status code, and whether the "Failed to create page" branch was taken
(`status_code != 200`). -/
def publishLoop (publish : NotionPayload → Nat × PyVal) :
    List (List (String × PyVal)) → Except PyErr (List (PyVal × Nat × Bool))
  | [] => .ok []
  | b :: rest =>
    match create_notion_page b with
    | .error e => .error e
    | .ok payload =>
      match publishLoop publish rest with
      | .error e => .error e
      | .ok logs =>
        .ok (((b.lookup "ISBN").getD .none, (publish payload).1, (publish payload).1 != 200) :: logs)

/-- `process_isbns_and_update_notion(file_path, ...)`: read and dedup the
identifier file, fetch and merge all records, then publish each row,
returning the table (`books_df`) together with the per-row publish log. -/
def process_isbns_and_update_notion (gNet oNet : String → Nat → NetOutcome)
    (publish : NotionPayload → Nat × PyVal) (lines : List String) :
    Except PyErr (List (List (String × PyVal)) × List (PyVal × Nat × Bool)) :=
  match fetch_books_data gNet oNet (read_isbns_from_file lines) with
  | .error e => .error e
  | .ok books =>
    match publishLoop publish books with
    | .error e => .error e
    | .ok logs => .ok (books, logs)

/-- The canonical record when neither source had any data: every metadata
field is the sentinel `"N/A"`. -/
def allNA (isbn : String) : List (String × PyVal) :=
  [ ("ISBN", .str isbn), ("Title", .str "N/A"), ("Authors", .str "N/A"),
    ("Cover URL", .str "N/A"), ("Categories/Subjects", .str "N/A"),
    ("Page Count", .str "N/A") ]

/-- Spec-side truthiness, written from the claim's words: a value is
"present" when it is non-null, a non-empty string, a non-empty collection,
or a non-zero count. -/
def claimTruthy : PyVal → Bool
  | .none => false
  | .str s => !(s == "")
  | .int n => !(n == 0)
  | .list xs => !xs.isEmpty
  | .dict kvs => !kvs.isEmpty

/-- Spec-side per-field precedence, written from the claim's words: the
Google value when present, else the Open Library value when present, else
the literal sentinel `"N/A"`. -/
def specPrecedence (a b : PyVal) : PyVal :=
  if claimTruthy a then a else if claimTruthy b then b else .str "N/A"

/-- A value `str.join` accepts: a list of strings, a string, or a dict
(whose keys are joined). -/
def joinable : PyVal → Bool
  | .list xs => xs.all fun x => match x with | .str _ => true | _ => false
  | .str _ => true
  | .dict _ => true
  | _ => false

/-- Well-shapedness of a Google Books 200-response body: a JSON object;
when the `items` key is present it must hold a non-empty array whose first
element is an object with an object-valued `volumeInfo` whose `authors`,
`categories` are joinable (when present) and whose `imageLinks` is an
object (when present). -/
def gbWellShaped : PyVal → Bool
  | .dict kvs =>
    match kvs.lookup "items" with
    | Option.none => true
    | some (.list (first :: _)) =>
      match first with
      | .dict fkvs =>
        match fkvs.lookup "volumeInfo" with
        | some (.dict vi) =>
          joinable ((vi.lookup "authors").getD (.list [])) &&
          joinable ((vi.lookup "categories").getD (.list [])) &&
          (match (vi.lookup "imageLinks").getD (.dict []) with
            | .dict _ => true
            | _ => false)
        | _ => false
      | _ => false
    | some _ => false
  | _ => false

/-- A value Open Library's duck-typed name normalization handles: an empty
or all-string list, a list of objects whose `name` values are strings (or
absent), a string, or an empty dict. -/
def olShapeOk : PyVal → Bool
  | .list [] => true
  | .list (x :: xs) =>
    match x with
    | .dict _ =>
      (x :: xs).all fun a =>
        match a with
        | .dict kv =>
          match kv.lookup "name" with
          | some (.str _) => true
          | Option.none => true
          | some _ => false
        | _ => false
    | _ => (x :: xs).all fun a => match a with | .str _ => true | _ => false
  | .str _ => true
  | .dict [] => true
  | _ => false

/-- Well-shapedness of an Open Library 200-response body for a given
identifier: a JSON object; when the `ISBN:{isbn}` key is present it must
hold an object whose `authors`/`subjects` values the name normalization
handles and whose `cover` is an object (when present). -/
def olWellShaped (isbn : String) : PyVal → Bool
  | .dict kvs =>
    match kvs.lookup ("ISBN:" ++ isbn) with
    | Option.none => true
    | some (.dict bd) =>
      olShapeOk ((bd.lookup "authors").getD (.list [])) &&
      olShapeOk ((bd.lookup "subjects").getD (.list [])) &&
      (match (bd.lookup "cover").getD (.dict []) with
        | .dict _ => true
        | _ => false)
    | some _ => false
  | _ => false

/-! ### Helper lemmas -/

theorem pyTruthy_eq_claimTruthy (v : PyVal) : pyTruthy v = claimTruthy v := by
  cases v <;> rfl

theorem pyOr_eq_specPrecedence (a b : PyVal) :
    pyOr a (pyOr b (.str "N/A")) = specPrecedence a b := by
  simp only [pyOr, specPrecedence, pyTruthy_eq_claimTruthy]

theorem specPrecedence_cases (a b : PyVal) :
    specPrecedence a b = a ∨ specPrecedence a b = b ∨ specPrecedence a b = .str "N/A" := by
  unfold specPrecedence
  by_cases ha : claimTruthy a
  · simp [ha]
  · by_cases hb : claimTruthy b <;> simp [ha, hb]

/-! ### C1 -/

/-- C1: each field of the record returned by `merge_book_data` equals the
Google value when truthy, otherwise the Open Library value when truthy,
otherwise the literal `"N/A"` (this is `specPrecedence`, written from the
claim's words); no field combines fragments from both sources; and a page
count of `0` from Google is treated exactly like an absent page count. -/
theorem c1_merge_field_precedence (isbn : String) (google_data open_library_data : SourceRecord) :
    ((merge_book_data isbn google_data open_library_data).lookup "Title"
        = some (specPrecedence google_data.title open_library_data.title))
    ∧ ((merge_book_data isbn google_data open_library_data).lookup "Authors"
        = some (specPrecedence google_data.authors open_library_data.authors))
    ∧ ((merge_book_data isbn google_data open_library_data).lookup "Cover URL"
        = some (specPrecedence google_data.coverUrl open_library_data.coverUrl))
    ∧ ((merge_book_data isbn google_data open_library_data).lookup "Categories/Subjects"
        = some (specPrecedence google_data.categories open_library_data.categories))
    ∧ ((merge_book_data isbn google_data open_library_data).lookup "Page Count"
        = some (specPrecedence google_data.pageCount open_library_data.pageCount))
    ∧ (∀ a b : PyVal, specPrecedence a b = a ∨ specPrecedence a b = b
        ∨ specPrecedence a b = .str "N/A")
    ∧ ((merge_book_data isbn { google_data with pageCount := .int 0 }
          open_library_data).lookup "Page Count"
        = (merge_book_data isbn { google_data with pageCount := .none }
            open_library_data).lookup "Page Count") := by
  refine ⟨?_, ?_, ?_, ?_, ?_, specPrecedence_cases, rfl⟩ <;>
    simp only [merge_book_data, List.lookup, pyOr_eq_specPrecedence] <;> rfl

/-! ### C9 -/

/-- C9: the record returned by `merge_book_data` has exactly the keys
`ISBN`, `Title`, `Authors`, `Cover URL`, `Categories/Subjects`,
`Page Count` in that fixed order, and its `ISBN` value is the input
identifier verbatim (never replaced by the sentinel). -/
theorem c9_merge_key_order (isbn : String) (google_data open_library_data : SourceRecord) :
    ((merge_book_data isbn google_data open_library_data).map Prod.fst
        = ["ISBN", "Title", "Authors", "Cover URL", "Categories/Subjects", "Page Count"])
    ∧ ((merge_book_data isbn google_data open_library_data).lookup "ISBN"
        = some (.str isbn)) :=
  ⟨rfl, rfl⟩

/-! ### C2 -/

/-- Counterexample to C2: a successful (status 200) Google Books response
whose `items` key holds an *empty* list makes `fetch_from_google_books`
raise `IndexError` at `data['items'][0]` instead of returning a record —
the claim's "empty 'items' list" case crashes rather than degrading. -/
theorem c2_empty_items_raises :
    (fetch_from_google_books_scanner (.resp 200 (.dict [("items", .list [])]))).result
      = .error .indexError := rfl

theorem asStrings_of_all (xs : List PyVal)
    (h : (xs.all fun x => match x with | .str _ => true | _ => false) = true) :
    ∃ ss, asStrings xs = some ss := by
  induction xs with
  | nil => exact ⟨[], rfl⟩
  | cons x rest ih =>
    rw [List.all_cons, Bool.and_eq_true] at h
    obtain ⟨hx, hrest⟩ := h
    obtain ⟨ss, hss⟩ := ih hrest
    cases x with
    | str s => exact ⟨s :: ss, by simp [asStrings, hss]⟩
    | none => simp at hx
    | int n => simp at hx
    | list l => simp at hx
    | dict d => simp at hx

theorem pyJoin_ok_of_joinable (sep : String) (v : PyVal) (h : joinable v = true) :
    ∃ s, pyJoin sep v = .ok (.str s) := by
  cases v with
  | list xs =>
    obtain ⟨ss, hss⟩ := asStrings_of_all xs (by simpa [joinable] using h)
    exact ⟨String.intercalate sep ss, by simp [pyJoin, hss]⟩
  | str s => exact ⟨_, rfl⟩
  | dict kvs => exact ⟨_, rfl⟩
  | none => simp [joinable] at h
  | int n => simp [joinable] at h

theorem namesOf_ok_of_nameDicts (xs : List PyVal)
    (h : (xs.all fun a =>
        match a with
        | .dict kv =>
          match kv.lookup "name" with
          | some (.str _) => true
          | Option.none => true
          | some _ => false
        | _ => false) = true) :
    ∃ ns, namesOf xs = .ok ns
      ∧ (ns.all fun x => match x with | .str _ => true | _ => false) = true := by
  induction xs with
  | nil => exact ⟨[], rfl, rfl⟩
  | cons a rest ih =>
    rw [List.all_cons, Bool.and_eq_true] at h
    obtain ⟨ha, hrest⟩ := h
    obtain ⟨ns, hns, hstr⟩ := ih hrest
    cases a with
    | dict kv =>
      have ha' : (match kv.lookup "name" with
          | some (.str _) => true
          | Option.none => true
          | some _ => false) = true := ha
      cases hname : kv.lookup "name" with
      | none =>
        refine ⟨.str "" :: ns, ?_, by simp [List.all_cons, hstr]⟩
        simp [namesOf, pyGet, hname, hns]
      | some nv =>
        rw [hname] at ha'
        cases nv with
        | str s =>
          refine ⟨.str s :: ns, ?_, by simp [List.all_cons, hstr]⟩
          simp [namesOf, pyGet, hname, hns]
        | none => simp at ha'
        | int n => simp at ha'
        | list l => simp at ha'
        | dict d => simp at ha'
    | none => simp at ha
    | str s => simp at ha
    | int n => simp at ha
    | list l => simp at ha

theorem olNames_ok_of_shapeOk (v : PyVal) (h : olShapeOk v = true) :
    ∃ s, olNames v = .ok (.str s) := by
  cases v with
  | list xs =>
    cases xs with
    | nil => exact ⟨"", rfl⟩
    | cons x rest =>
      cases x with
      | dict kv =>
        rw [show olShapeOk (.list (.dict kv :: rest))
            = ((PyVal.dict kv :: rest).all fun a =>
                match a with
                | .dict kv' =>
                  match kv'.lookup "name" with
                  | some (.str _) => true
                  | Option.none => true
                  | some _ => false
                | _ => false) from rfl] at h
        obtain ⟨ns, hns, hstr⟩ := namesOf_ok_of_nameDicts _ h
        obtain ⟨ss, hss⟩ := asStrings_of_all ns hstr
        refine ⟨String.intercalate ", " ss, ?_⟩
        simp [olNames, pyTruthy, pySubscriptIdx, hns, pyJoin, hss]
      | str s =>
        have hall : ((PyVal.str s :: rest).all
            fun a => match a with | .str _ => true | _ => false) = true := by
          simpa [olShapeOk] using h
        obtain ⟨ss, hss⟩ := asStrings_of_all _ hall
        refine ⟨String.intercalate ", " ss, ?_⟩
        simp [olNames, pyTruthy, pySubscriptIdx, pyJoin, hss]
      | none => simp [olShapeOk] at h
      | int n => simp [olShapeOk] at h
      | list l => simp [olShapeOk] at h
  | str s =>
    cases s with
    | mk chars =>
      cases chars with
      | nil => exact ⟨"", rfl⟩
      | cons c cs => exact ⟨_, rfl⟩
  | dict kvs =>
    cases kvs with
    | nil => exact ⟨"", rfl⟩
    | cons kv rest => simp [olShapeOk] at h
  | none => simp [olShapeOk] at h
  | int n => simp [olShapeOk] at h

theorem gbExtract_ok_of_wellShaped (data : PyVal) (h : gbWellShaped data = true) :
    ∃ ro, gbExtract data = .ok ro := by
  cases data with
  | dict kvs =>
    have h' : (match kvs.lookup "items" with
        | Option.none => true
        | some (.list (first :: _)) =>
          match first with
          | .dict fkvs =>
            match fkvs.lookup "volumeInfo" with
            | some (.dict vi) =>
              joinable ((vi.lookup "authors").getD (.list [])) &&
              joinable ((vi.lookup "categories").getD (.list [])) &&
              (match (vi.lookup "imageLinks").getD (.dict []) with
                | .dict _ => true
                | _ => false)
            | _ => false
          | _ => false
        | some _ => false) = true := h
    cases hitems : kvs.lookup "items" with
    | none => exact ⟨Option.none, by simp [gbExtract, pyContains, hitems]⟩
    | some items =>
      rw [hitems] at h'
      cases items with
      | list elems =>
        cases elems with
        | nil => simp at h'
        | cons first rest =>
          cases first with
          | dict fkvs =>
            have h2 : (match fkvs.lookup "volumeInfo" with
                | some (.dict vi) =>
                  joinable ((vi.lookup "authors").getD (.list [])) &&
                  joinable ((vi.lookup "categories").getD (.list [])) &&
                  (match (vi.lookup "imageLinks").getD (.dict []) with
                    | .dict _ => true
                    | _ => false)
                | _ => false) = true := h'
            cases hvi : fkvs.lookup "volumeInfo" with
            | none => rw [hvi] at h2; simp at h2
            | some viv =>
              rw [hvi] at h2
              cases viv with
              | dict vi =>
                have h3 : (joinable ((vi.lookup "authors").getD (.list [])) &&
                    (joinable ((vi.lookup "categories").getD (.list [])) &&
                    (match (vi.lookup "imageLinks").getD (.dict []) with
                      | .dict _ => true
                      | _ => false))) = true := by
                  have h4 : (joinable ((vi.lookup "authors").getD (.list [])) &&
                      joinable ((vi.lookup "categories").getD (.list [])) &&
                      (match (vi.lookup "imageLinks").getD (.dict []) with
                        | .dict _ => true
                        | _ => false)) = true := h2
                  rw [Bool.and_assoc] at h4
                  exact h4
                rw [Bool.and_eq_true, Bool.and_eq_true] at h3
                obtain ⟨hA, hC, hI⟩ := h3
                obtain ⟨sA, hjA⟩ := pyJoin_ok_of_joinable ", " _ hA
                obtain ⟨sC, hjC⟩ := pyJoin_ok_of_joinable ", " _ hC
                cases him : (vi.lookup "imageLinks").getD (.dict []) with
                | dict imkvs =>
                  refine ⟨some ⟨(vi.lookup "title").getD .none, .str sA,
                    (imkvs.lookup "thumbnail").getD .none, .str sC,
                    (vi.lookup "pageCount").getD .none⟩, ?_⟩
                  simp [gbExtract, pyContains, hitems, pySubscriptKey, pySubscriptIdx,
                    pyGet, hvi, hjA, hjC, him]
                | none => rw [him] at hI; simp at hI
                | str s => rw [him] at hI; simp at hI
                | int n => rw [him] at hI; simp at hI
                | list l => rw [him] at hI; simp at hI
              | none => simp at h2
              | str s => simp at h2
              | int n => simp at h2
              | list l => simp at h2
          | none => simp at h'
          | str s => simp at h'
          | int n => simp at h'
          | list l => simp at h'
      | none => simp at h'
      | str s => simp at h'
      | int n => simp at h'
      | dict d => simp at h'
  | none => simp [gbWellShaped] at h
  | str s => simp [gbWellShaped] at h
  | int n => simp [gbWellShaped] at h
  | list l => simp [gbWellShaped] at h

theorem olExtract_ok_of_wellShaped (isbn : String) (data : PyVal)
    (h : olWellShaped isbn data = true) :
    ∃ ro, olExtract isbn data = .ok ro := by
  cases data with
  | dict kvs =>
    have h' : (match kvs.lookup ("ISBN:" ++ isbn) with
        | Option.none => true
        | some (.dict bd) =>
          olShapeOk ((bd.lookup "authors").getD (.list [])) &&
          olShapeOk ((bd.lookup "subjects").getD (.list [])) &&
          (match (bd.lookup "cover").getD (.dict []) with
            | .dict _ => true
            | _ => false)
        | some _ => false) = true := h
    cases hkey : kvs.lookup ("ISBN:" ++ isbn) with
    | none => exact ⟨Option.none, by simp [olExtract, pyContains, hkey]⟩
    | some bdv =>
      rw [hkey] at h'
      cases bdv with
      | dict bd =>
        have h2 : (olShapeOk ((bd.lookup "authors").getD (.list [])) &&
            (olShapeOk ((bd.lookup "subjects").getD (.list [])) &&
            (match (bd.lookup "cover").getD (.dict []) with
              | .dict _ => true
              | _ => false))) = true := by
          have h3 : (olShapeOk ((bd.lookup "authors").getD (.list [])) &&
              olShapeOk ((bd.lookup "subjects").getD (.list [])) &&
              (match (bd.lookup "cover").getD (.dict []) with
                | .dict _ => true
                | _ => false)) = true := h'
          rw [Bool.and_assoc] at h3
          exact h3
        rw [Bool.and_eq_true, Bool.and_eq_true] at h2
        obtain ⟨hA, hS, hC⟩ := h2
        obtain ⟨sA, hnA⟩ := olNames_ok_of_shapeOk _ hA
        obtain ⟨sS, hnS⟩ := olNames_ok_of_shapeOk _ hS
        cases hcov : (bd.lookup "cover").getD (.dict []) with
        | dict ckvs =>
          refine ⟨some ⟨(bd.lookup "title").getD .none, .str sA,
            (ckvs.lookup "medium").getD .none, .str sS,
            (bd.lookup "number_of_pages").getD .none⟩, ?_⟩
          simp [olExtract, pyContains, hkey, pySubscriptKey, pyGet, hnA, hnS, hcov]
        | none => rw [hcov] at hC; simp at hC
        | str s => rw [hcov] at hC; simp at hC
        | int n => rw [hcov] at hC; simp at hC
        | list l => rw [hcov] at hC; simp at hC
      | none => simp at h'
      | str s => simp at h'
      | int n => simp at h'
      | list l => simp at h'
  | none => simp [olWellShaped] at h
  | str s => simp [olWellShaped] at h
  | int n => simp [olWellShaped] at h
  | list l => simp [olWellShaped] at h

/-- C2 (amended): each adapter returns the fully-populated record (all
fields absent) rather than raising for a non-success status and for a
successful body that lacks the source's top-level key, and returns a
record for every well-shaped body; but when the top-level key is present
with an unexpected shape the extraction raises (e.g. `IndexError` on an
empty `items` list) instead of returning a record. -/
theorem c2_adapter_fetch_totality (status : Nat) (body : PyVal) (isbn : String) :
    (status ≠ 200 →
      (fetch_from_google_books_scanner (.resp status body)).result = .ok emptyRecord
      ∧ (fetch_from_open_library_scanner isbn (.resp status body)).result = .ok emptyRecord)
    ∧ (∀ kvs : List (String × PyVal), kvs.lookup "items" = Option.none →
        (fetch_from_google_books_scanner (.resp 200 (.dict kvs))).result = .ok emptyRecord)
    ∧ (∀ kvs : List (String × PyVal), kvs.lookup ("ISBN:" ++ isbn) = Option.none →
        (fetch_from_open_library_scanner isbn (.resp 200 (.dict kvs))).result = .ok emptyRecord)
    ∧ (gbWellShaped body = true →
        ∃ r, (fetch_from_google_books_scanner (.resp 200 body)).result = .ok r)
    ∧ (olWellShaped isbn body = true →
        ∃ r, (fetch_from_open_library_scanner isbn (.resp 200 body)).result = .ok r) := by
  refine ⟨fun hstatus => ?_, fun kvs hkvs => ?_, fun kvs hkvs => ?_,
    fun hws => ?_, fun hws => ?_⟩
  · have hst : (status == 200) = false := by simpa using hstatus
    exact ⟨by simp [fetch_from_google_books_scanner, scanFetch, hst],
      by simp [fetch_from_open_library_scanner, scanFetch, hst]⟩
  · simp [fetch_from_google_books_scanner, scanFetch, gbExtract, pyContains, hkvs]
  · simp [fetch_from_open_library_scanner, scanFetch, olExtract, pyContains, hkvs]
  · obtain ⟨ro, hro⟩ := gbExtract_ok_of_wellShaped body hws
    cases ro with
    | none => exact ⟨emptyRecord, by simp [fetch_from_google_books_scanner, scanFetch, hro]⟩
    | some r => exact ⟨r, by simp [fetch_from_google_books_scanner, scanFetch, hro]⟩
  · obtain ⟨ro, hro⟩ := olExtract_ok_of_wellShaped isbn body hws
    cases ro with
    | none => exact ⟨emptyRecord, by simp [fetch_from_open_library_scanner, scanFetch, hro]⟩
    | some r => exact ⟨r, by simp [fetch_from_open_library_scanner, scanFetch, hro]⟩

/-- Witness for the amended C2 at concrete inputs. -/
theorem c2_adapter_fetch_totality_witness :
    ((fetch_from_google_books_scanner (.resp 404 (.dict []))).result = .ok emptyRecord
      ∧ (fetch_from_open_library_scanner "9780143127741"
          (.resp 404 (.dict []))).result = .ok emptyRecord)
    ∧ ((fetch_from_google_books_scanner (.resp 200 (.dict []))).result = .ok emptyRecord)
    ∧ ((fetch_from_open_library_scanner "9780143127741"
        (.resp 200 (.dict []))).result = .ok emptyRecord)
    ∧ (∃ r, (fetch_from_google_books_scanner (.resp 200 (.dict []))).result = .ok r)
    ∧ (∃ r, (fetch_from_open_library_scanner "9780143127741"
        (.resp 200 (.dict []))).result = .ok r) := by
  have h := c2_adapter_fetch_totality 404 (.dict []) "9780143127741"
  exact ⟨h.1 (by decide), h.2.1 [] rfl, h.2.2.1 [] rfl,
    h.2.2.2.1 rfl, h.2.2.2.2 rfl⟩

/-! ### C3 -/

theorem retryLoop_allExn (extract : PyVal → Except PyErr (Option SourceRecord))
    (net : Nat → NetOutcome) (attempt : Nat) (h0 : net attempt = .exn)
    (h1 : net (attempt + 1) = .exn) (h2 : net (attempt + 2) = .exn) :
    retryLoop extract net attempt 3 = ⟨.ok emptyRecord, 3, [2, 2, 2], 3⟩ := by
  simp [retryLoop, h0, h1, h2]

theorem retryLoop_non200 (extract : PyVal → Except PyErr (Option SourceRecord))
    (net : Nat → NetOutcome) (attempt fuel : Nat) (status : Nat) (body : PyVal)
    (hnet : net attempt = .resp status body) (hst : status ≠ 200) :
    retryLoop extract net attempt (fuel + 1) = ⟨.ok emptyRecord, 1, [], 0⟩ := by
  have hb : (status == 200) = false := by simpa using hst
  simp [retryLoop, hnet, hb]

theorem scanFetch_calls (extract : PyVal → Except PyErr (Option SourceRecord))
    (o : NetOutcome) : (scanFetch extract o).calls = 1 := by
  cases o with
  | exn => rfl
  | resp s b =>
    simp only [scanFetch]
    by_cases hs : (s == 200) = true
    · rw [if_pos hs]
      rcases hx : extract b with e | ro
      · simp [hx]
      · cases ro <;> simp [hx]
    · rw [if_neg hs]

/-- C3: in the batch entry point (`notion_loader.py`) a network-level
failure (`RequestException`) is retried up to 3 attempts total with a
fixed delay of 2 seconds after each failed attempt; after the third
failure the adapter returns the all-absent record, each failure having
been logged, and no exception escapes; a non-200 status is not retried
(one single call); and the interactive entry point's adapters
(`scanner.py`) make exactly one request with no retry. -/
theorem c3_retry_policy (netF netS : Nat → NetOutcome) (isbn : String) (status : Nat)
    (body : PyVal) (o : NetOutcome) :
    (netF 0 = .exn → netF 1 = .exn → netF 2 = .exn →
      fetch_from_google_books_loader netF = ⟨.ok emptyRecord, 3, [2, 2, 2], 3⟩
      ∧ fetch_from_open_library_loader isbn netF = ⟨.ok emptyRecord, 3, [2, 2, 2], 3⟩)
    ∧ (netS 0 = .resp status body → status ≠ 200 →
      fetch_from_google_books_loader netS = ⟨.ok emptyRecord, 1, [], 0⟩
      ∧ fetch_from_open_library_loader isbn netS = ⟨.ok emptyRecord, 1, [], 0⟩)
    ∧ ((fetch_from_google_books_scanner o).calls = 1
      ∧ (fetch_from_open_library_scanner isbn o).calls = 1) := by
  refine ⟨fun h0 h1 h2 => ?_, fun hnet hst => ?_, ?_⟩
  · exact ⟨retryLoop_allExn _ netF 0 h0 h1 h2, retryLoop_allExn _ netF 0 h0 h1 h2⟩
  · exact ⟨retryLoop_non200 _ netS 0 2 status body hnet hst,
      retryLoop_non200 _ netS 0 2 status body hnet hst⟩
  · exact ⟨scanFetch_calls gbExtract o, scanFetch_calls (olExtract isbn) o⟩

/-- Witness for C3 at concrete network oracles. -/
theorem c3_retry_policy_witness :
    (fetch_from_google_books_loader (constNet .exn) = ⟨.ok emptyRecord, 3, [2, 2, 2], 3⟩
      ∧ fetch_from_open_library_loader "9780143127741" (constNet .exn)
          = ⟨.ok emptyRecord, 3, [2, 2, 2], 3⟩)
    ∧ (fetch_from_google_books_loader (constNet (.resp 404 .none)) = ⟨.ok emptyRecord, 1, [], 0⟩
      ∧ fetch_from_open_library_loader "9780143127741" (constNet (.resp 404 .none))
          = ⟨.ok emptyRecord, 1, [], 0⟩)
    ∧ ((fetch_from_google_books_scanner .exn).calls = 1
      ∧ (fetch_from_open_library_scanner "9780143127741" .exn).calls = 1) := by
  have h := c3_retry_policy (constNet .exn) (constNet (.resp 404 PyVal.none))
    "9780143127741" 404 PyVal.none .exn
  exact ⟨h.1 rfl rfl rfl, h.2.1 rfl (by decide), h.2.2⟩

/-! ### C4 -/

theorem fetch_books_data_ok_cons (gNet oNet : String → Nat → NetOutcome) (isbn : String)
    (rest : List String) (books : List (List (String × PyVal)))
    (h : fetch_books_data gNet oNet (isbn :: rest) = .ok books) :
    ∃ g o restRecs, (fetch_from_google_books_loader (gNet isbn)).result = .ok g
      ∧ (fetch_from_open_library_loader isbn (oNet isbn)).result = .ok o
      ∧ fetch_books_data gNet oNet rest = .ok restRecs
      ∧ books = merge_book_data isbn g o :: restRecs := by
  rw [show fetch_books_data gNet oNet (isbn :: rest)
      = (match (fetch_from_google_books_loader (gNet isbn)).result with
        | .error e => .error e
        | .ok google_data =>
          match (fetch_from_open_library_loader isbn (oNet isbn)).result with
          | .error e => .error e
          | .ok open_library_data =>
            match fetch_books_data gNet oNet rest with
            | .error e => .error e
            | .ok restRecords =>
              .ok (merge_book_data isbn google_data open_library_data :: restRecords))
      from rfl] at h
  rcases hg : (fetch_from_google_books_loader (gNet isbn)).result with e | g <;> rw [hg] at h
  · simp at h
  rcases ho : (fetch_from_open_library_loader isbn (oNet isbn)).result with e | o <;>
    rw [ho] at h
  · simp at h
  rcases hr : fetch_books_data gNet oNet rest with e | restRecs <;> rw [hr] at h
  · simp at h
  · refine ⟨g, o, restRecs, rfl, rfl, rfl, ?_⟩
    simpa using h.symm

theorem fetch_books_data_map_isbn (gNet oNet : String → Nat → NetOutcome) :
    ∀ (isbns : List String) (books : List (List (String × PyVal))),
      fetch_books_data gNet oNet isbns = .ok books →
      books.map (fun b => b.lookup "ISBN") = isbns.map (fun i => some (.str i)) := by
  intro isbns
  induction isbns with
  | nil =>
    intro books h
    have hb : books = [] := by simpa [fetch_books_data] using h.symm
    subst hb
    rfl
  | cons isbn rest ih =>
    intro books h
    obtain ⟨g, o, restRecs, _, _, hr, hb⟩ := fetch_books_data_ok_cons gNet oNet isbn rest books h
    subst hb
    simp only [List.map_cons, ih restRecs hr]
    rfl

theorem fetch_books_data_mem (gNet oNet : String → Nat → NetOutcome) :
    ∀ (isbns : List String) (books : List (List (String × PyVal))),
      fetch_books_data gNet oNet isbns = .ok books →
      ∀ isbn, isbn ∈ isbns →
        ∃ g o, (fetch_from_google_books_loader (gNet isbn)).result = .ok g
          ∧ (fetch_from_open_library_loader isbn (oNet isbn)).result = .ok o
          ∧ merge_book_data isbn g o ∈ books := by
  intro isbns
  induction isbns with
  | nil => intro books _ isbn hm; cases hm
  | cons hd rest ih =>
    intro books h isbn hm
    obtain ⟨g, o, restRecs, hg, ho, hr, hb⟩ := fetch_books_data_ok_cons gNet oNet hd rest books h
    subst hb
    rcases List.mem_cons.mp hm with heq | htl
    · subst heq
      exact ⟨g, o, hg, ho, List.mem_cons_self _ _⟩
    · obtain ⟨g', o', hg', ho', hmem⟩ := ih restRecs hr isbn htl
      exact ⟨g', o', hg', ho', List.mem_cons_of_mem _ hmem⟩

/-- C4: the batch pipeline deduplicates the identifier collection read
from the file before fetching: the fetched table carries exactly one
record per unique (stripped, non-blank) identifier — its `ISBN` column is
the deduplicated identifier list, which is duplicate-free and contains
exactly the cleaned input identifiers — and in particular an input file
with lines `[i, i, j]` yields 2 records, not 3 (with no guarantee that
input order survives the set). -/
theorem c4_dedup_before_fetch (gNet oNet gNet2 oNet2 : String → Nat → NetOutcome)
    (lines : List String) (books books2 : List (List (String × PyVal))) (i j : String) :
    (fetch_books_data gNet oNet (read_isbns_from_file lines) = .ok books →
      books.map (fun b => b.lookup "ISBN")
          = (read_isbns_from_file lines).map (fun s => some (.str s))
      ∧ (read_isbns_from_file lines).Nodup
      ∧ (∀ s, s ∈ read_isbns_from_file lines ↔ s ∈ (lines.map pyStrip).filter (fun t => t ≠ "")))
    ∧ (pyStrip i = i → pyStrip j = j → i ≠ "" → j ≠ "" → i ≠ j →
      fetch_books_data gNet2 oNet2 (read_isbns_from_file [i, i, j]) = .ok books2 →
      books2.length = 2) := by
  constructor
  · intro h
    refine ⟨fetch_books_data_map_isbn gNet oNet _ books h, List.nodup_dedup _, fun s => ?_⟩
    exact List.mem_dedup
  · intro hsi hsj hi hj hij h
    have hread : read_isbns_from_file [i, i, j] = [i, j] := by
      have hfil : ((([i, i, j] : List String).map pyStrip).filter fun t => t ≠ "")
          = [i, i, j] := by
        simp [hsi, hsj, List.filter_cons, hi, hj]
      rw [read_isbns_from_file, hfil]
      rw [List.dedup_cons_of_mem (by simp), List.dedup_cons_of_not_mem (by simp [hij])]
      simp
    rw [hread] at h
    have hmap := fetch_books_data_map_isbn gNet2 oNet2 _ books2 h
    have : books2.length = ([i, j].map fun s => some (PyVal.str s)).length := by
      rw [← hmap, List.length_map]
    simpa using this

/-- Witness for C4 at a concrete file and network. -/
theorem c4_dedup_before_fetch_witness :
    (([allNA "1"] : List (List (String × PyVal))).map (fun b => b.lookup "ISBN")
        = (read_isbns_from_file ["1"]).map (fun s => some (.str s))
      ∧ (read_isbns_from_file ["1"]).Nodup
      ∧ (∀ s, s ∈ read_isbns_from_file ["1"]
          ↔ s ∈ ((["1"] : List String).map pyStrip).filter (fun t => t ≠ "")))
    ∧ ([allNA "1", allNA "2"] : List (List (String × PyVal))).length = 2 := by
  have h := c4_dedup_before_fetch (fun _ => constNet (.resp 404 .none))
    (fun _ => constNet (.resp 404 .none)) (fun _ => constNet (.resp 404 .none))
    (fun _ => constNet (.resp 404 .none)) ["1"] [allNA "1"] [allNA "1", allNA "2"] "1" "2"
  exact ⟨h.1 rfl, h.2 rfl rfl (by decide) (by decide) (by decide) rfl⟩

/-! ### C5 -/

theorem publishLoop_ok (publish : NotionPayload → Nat × PyVal) :
    ∀ (books : List (List (String × PyVal))) (logs : List (PyVal × Nat × Bool)),
      publishLoop publish books = .ok logs →
      logs.length = books.length
      ∧ ∀ k (hk : k < books.length) (hk2 : k < logs.length),
          ∃ p, create_notion_page (books.get ⟨k, hk⟩) = .ok p
            ∧ logs.get ⟨k, hk2⟩
              = (((books.get ⟨k, hk⟩).lookup "ISBN").getD .none,
                  (publish p).1, (publish p).1 != 200) := by
  intro books
  induction books with
  | nil =>
    intro logs h
    have hl : logs = [] := by simpa [publishLoop] using h.symm
    subst hl
    exact ⟨rfl, fun k hk _ => absurd hk (by simp)⟩
  | cons b rest ih =>
    intro logs h
    rw [show publishLoop publish (b :: rest)
        = (match create_notion_page b with
          | .error e => .error e
          | .ok payload =>
            match publishLoop publish rest with
            | .error e => .error e
            | .ok logs' =>
              .ok (((b.lookup "ISBN").getD .none,
                (publish payload).1, (publish payload).1 != 200) :: logs'))
        from rfl] at h
    rcases hc : create_notion_page b with e | payload <;> rw [hc] at h
    · simp at h
    rcases hp : publishLoop publish rest with e | restLogs <;> rw [hp] at h
    · simp at h
    have hl : logs = ((b.lookup "ISBN").getD .none,
        (publish payload).1, (publish payload).1 != 200) :: restLogs := by
      simpa using h.symm
    subst hl
    obtain ⟨hlen, hidx⟩ := ih restLogs hp
    refine ⟨by simp [hlen], fun k hk hk2 => ?_⟩
    cases k with
    | zero => exact ⟨payload, hc, rfl⟩
    | succ n =>
      obtain ⟨p, hcp, hlog⟩ := hidx n (by simpa using hk) (by simpa using hk2)
      exact ⟨p, hcp, hlog⟩

theorem process_ok (gNet oNet : String → Nat → NetOutcome)
    (publish : NotionPayload → Nat × PyVal) (lines : List String)
    (books : List (List (String × PyVal))) (logs : List (PyVal × Nat × Bool))
    (h : process_isbns_and_update_notion gNet oNet publish lines = .ok (books, logs)) :
    fetch_books_data gNet oNet (read_isbns_from_file lines) = .ok books
    ∧ publishLoop publish books = .ok logs := by
  unfold process_isbns_and_update_notion at h
  rcases hf : fetch_books_data gNet oNet (read_isbns_from_file lines) with e | books' <;>
    rw [hf] at h
  · simp at h
  have h2 : (match publishLoop publish books' with
      | .error e => (.error e : Except PyErr (List (List (String × PyVal)) × List (PyVal × Nat × Bool)))
      | .ok logs' => .ok (books', logs')) = .ok (books, logs) := h
  rcases hp : publishLoop publish books' with e | logs' <;> rw [hp] at h2
  · simp at h2
  · simp only [Except.ok.injEq, Prod.mk.injEq] at h2
    obtain ⟨hb, hl⟩ := h2
    subst hb; subst hl
    exact ⟨rfl, hp⟩

/-- C5: in a successful batch run, an identifier for which both adapters
returned the all-absent record still yields the all-`"N/A"` canonical
record in the result table (it is not dropped); every fetched record is
published (the publish log has one entry per record, so the batch never
aborts early because of one identifier's empty data or another record's
publish status); and each log entry reports the failure branch exactly
when that record's publish status is not 200 (hence for every non-2xx
status). -/
theorem c5_failure_policy (gNet oNet : String → Nat → NetOutcome)
    (publish : NotionPayload → Nat × PyVal) (lines : List String)
    (books : List (List (String × PyVal))) (logs : List (PyVal × Nat × Bool))
    (isbn : String)
    (h : process_isbns_and_update_notion gNet oNet publish lines = .ok (books, logs)) :
    (isbn ∈ read_isbns_from_file lines →
      (fetch_from_google_books_loader (gNet isbn)).result = .ok emptyRecord →
      (fetch_from_open_library_loader isbn (oNet isbn)).result = .ok emptyRecord →
      allNA isbn ∈ books)
    ∧ logs.length = books.length
    ∧ (∀ k (hk : k < books.length) (hk2 : k < logs.length),
        ∃ p, create_notion_page (books.get ⟨k, hk⟩) = .ok p
          ∧ logs.get ⟨k, hk2⟩
            = (((books.get ⟨k, hk⟩).lookup "ISBN").getD .none,
                (publish p).1, (publish p).1 != 200)) := by
  obtain ⟨hf, hp⟩ := process_ok gNet oNet publish lines books logs h
  obtain ⟨hlen, hidx⟩ := publishLoop_ok publish books logs hp
  refine ⟨fun hm hg ho => ?_, hlen, hidx⟩
  obtain ⟨g, o, hg', ho', hmem⟩ := fetch_books_data_mem gNet oNet _ books hf isbn hm
  have hge : g = emptyRecord := by
    have := hg'.symm.trans hg
    exact Except.ok.inj this
  have hoe : o = emptyRecord := by
    have := ho'.symm.trans ho
    exact Except.ok.inj this
  subst hge; subst hoe
  have : merge_book_data isbn emptyRecord emptyRecord = allNA isbn := rfl
  rwa [this] at hmem

/-- Witness for C5 at a concrete run: one identifier, both sources
return 404, the sink returns 200. -/
theorem c5_failure_policy_witness :
    allNA "x" ∈ ([allNA "x"] : List (List (String × PyVal)))
    ∧ ([(PyVal.str "x", 200, false)] : List (PyVal × Nat × Bool)).length
        = ([allNA "x"] : List (List (String × PyVal))).length
    ∧ (∃ p, create_notion_page
          (([allNA "x"] : List (List (String × PyVal))).get ⟨0, by decide⟩) = .ok p
        ∧ ([(PyVal.str "x", 200, false)] : List (PyVal × Nat × Bool)).get ⟨0, by decide⟩
          = (((([allNA "x"] : List (List (String × PyVal))).get
                ⟨0, by decide⟩).lookup "ISBN").getD .none,
              ((fun _ => (200, PyVal.none)) p).1,
              ((fun _ => (200, PyVal.none)) p).1 != 200)) := by
  have h := c5_failure_policy (fun _ => constNet (.resp 404 .none))
    (fun _ => constNet (.resp 404 .none)) (fun _ => (200, PyVal.none)) ["x"]
    [allNA "x"] [(PyVal.str "x", 200, false)] "x" rfl
  exact ⟨h.1 (by rw [show read_isbns_from_file ["x"] = ["x"] from rfl]; exact List.mem_singleton.mpr rfl) rfl rfl,
    h.2.1, h.2.2 0 (by decide) (by decide)⟩

/-! ### C6 and C10 -/

theorem pyOr_NA_truthy (a b : PyVal) : pyTruthy (pyOr a (pyOr b (.str "N/A"))) = true := by
  unfold pyOr
  by_cases ha : pyTruthy a = true
  · simp [ha]
  · simp [ha]
    by_cases hb : pyTruthy b = true
    · simp [hb]
    · simp [hb]
      rfl

theorem merged_categories_str (g o : SourceRecord)
    (hg : (∃ s, g.categories = .str s) ∨ g.categories = .none)
    (ho : (∃ s, o.categories = .str s) ∨ o.categories = .none) :
    ∃ s, pyOr g.categories (pyOr o.categories (.str "N/A")) = .str s := by
  unfold pyOr
  by_cases hgt : pyTruthy g.categories = true
  · rcases hg with ⟨s, hs⟩ | hn
    · refine ⟨s, ?_⟩
      rw [if_pos hgt, hs]
    · rw [hn] at hgt; simp [pyTruthy] at hgt
  · rw [if_neg hgt]
    by_cases hot : pyTruthy o.categories = true
    · rcases ho with ⟨s, hs⟩ | hn
      · refine ⟨s, ?_⟩
        rw [if_pos hot, hs]
      · rw [hn] at hot; simp [pyTruthy] at hot
    · rw [if_neg hot]
      exact ⟨"N/A", rfl⟩

theorem create_notion_page_merge (isbn : String) (g o : SourceRecord) (s : String)
    (hs : pyOr g.categories (pyOr o.categories (.str "N/A")) = .str s) :
    create_notion_page (merge_book_data isbn g o) = .ok
      { titleRichText := pyOr g.title (pyOr o.title (.str "N/A"))
        authorsRichText := pyOr g.authors (pyOr o.authors (.str "N/A"))
        categoryTags := (pySplitComma s).map fun c => .dict [("name", .str (pyStrip c))]
        pageNumber := match pyOr g.pageCount (pyOr o.pageCount (.str "N/A")) with
          | .int n => some n
          | _ => Option.none
        isbnRichText := .str isbn
        statusName := "To be read"
        cover := if pyTruthy (pyOr g.coverUrl (pyOr o.coverUrl (.str "N/A"))) &&
            !(match pyOr g.coverUrl (pyOr o.coverUrl (.str "N/A")) with
              | .str s' => s' == "N/A"
              | _ => false)
          then some (pyOr g.coverUrl (pyOr o.coverUrl (.str "N/A")))
          else Option.none } := by
  unfold merge_book_data
  rw [hs]
  rfl

/-- C6: for every canonical record (every output of `merge_book_data`
whose sources carry categories as the adapters produce them: a string or
`None`), `create_notion_page` builds a payload whose title and authors are
the rich-text contents of the merged values, whose tag collection is the
comma-split of the merged categories string with each piece stripped,
whose `number` field is populated exactly when the merged page count is an
actual integer (anything else, including the `"N/A"` sentinel, becomes an
explicit null), whose status tag is the fixed string `"To be read"`, and
whose cover reference is attached exactly when the merged cover value is
not the `"N/A"` sentinel (in which case it is that cover value). -/
theorem c6_create_notion_page_schema (isbn : String) (g o : SourceRecord)
    (hg : (∃ s, g.categories = .str s) ∨ g.categories = .none)
    (ho : (∃ s, o.categories = .str s) ∨ o.categories = .none) :
    ∃ p s, create_notion_page (merge_book_data isbn g o) = .ok p
      ∧ pyOr g.categories (pyOr o.categories (.str "N/A")) = .str s
      ∧ p.titleRichText = pyOr g.title (pyOr o.title (.str "N/A"))
      ∧ p.authorsRichText = pyOr g.authors (pyOr o.authors (.str "N/A"))
      ∧ p.categoryTags = ((pySplitComma s).map fun c => .dict [("name", .str (pyStrip c))])
      ∧ p.pageNumber = (match pyOr g.pageCount (pyOr o.pageCount (.str "N/A")) with
          | .int n => some n
          | _ => Option.none)
      ∧ p.isbnRichText = .str isbn
      ∧ p.statusName = "To be read"
      ∧ (p.cover = Option.none ↔ pyOr g.coverUrl (pyOr o.coverUrl (.str "N/A")) = .str "N/A")
      ∧ (∀ c, p.cover = some c → c = pyOr g.coverUrl (pyOr o.coverUrl (.str "N/A"))) := by
  obtain ⟨s, hs⟩ := merged_categories_str g o hg ho
  refine ⟨_, s, create_notion_page_merge isbn g o s hs, hs, rfl, rfl, rfl, rfl, rfl, rfl, ?_, ?_⟩
  · have htr := pyOr_NA_truthy g.coverUrl o.coverUrl
    rcases hm : pyOr g.coverUrl (pyOr o.coverUrl (.str "N/A")) with _ | s' | n | l | d <;>
      rw [hm] at htr
    · simp [pyTruthy] at htr
    · simp only [htr, Bool.true_and]
      by_cases hna : (s' == "N/A") = true
      · have : s' = "N/A" := by simpa using hna
        subst this
        simp
      · have : s' ≠ "N/A" := by simpa using hna
        simp [hna, this]
    · simp [htr]
    · simp [htr]
    · simp [htr]
  · intro c hc
    by_cases hcond : (pyTruthy (pyOr g.coverUrl (pyOr o.coverUrl (.str "N/A"))) &&
        !(match pyOr g.coverUrl (pyOr o.coverUrl (.str "N/A")) with
          | .str s' => s' == "N/A"
          | _ => false)) = true
    · rw [if_pos hcond] at hc
      exact (Option.some.inj hc).symm
    · rw [if_neg hcond] at hc
      cases hc

/-- Witness for C6 at a concrete canonical record. -/
theorem c6_create_notion_page_schema_witness :
    ∃ p s, create_notion_page (merge_book_data "9780143127741"
        ⟨.str "T", .str "A, B", .str "u", .str "c1, c2", .int 3⟩ emptyRecord) = .ok p
      ∧ pyOr (PyVal.str "c1, c2") (pyOr emptyRecord.categories (.str "N/A")) = .str s
      ∧ p.titleRichText = pyOr (PyVal.str "T") (pyOr emptyRecord.title (.str "N/A"))
      ∧ p.authorsRichText = pyOr (PyVal.str "A, B") (pyOr emptyRecord.authors (.str "N/A"))
      ∧ p.categoryTags = ((pySplitComma s).map fun c => .dict [("name", .str (pyStrip c))])
      ∧ p.pageNumber = (match pyOr (PyVal.int 3) (pyOr emptyRecord.pageCount (.str "N/A")) with
          | .int n => some n
          | _ => Option.none)
      ∧ p.isbnRichText = .str "9780143127741"
      ∧ p.statusName = "To be read"
      ∧ (p.cover = Option.none
          ↔ pyOr (PyVal.str "u") (pyOr emptyRecord.coverUrl (.str "N/A")) = .str "N/A")
      ∧ (∀ c, p.cover = some c
          → c = pyOr (PyVal.str "u") (pyOr emptyRecord.coverUrl (.str "N/A"))) :=
  c6_create_notion_page_schema "9780143127741"
    ⟨.str "T", .str "A, B", .str "u", .str "c1, c2", .int 3⟩ emptyRecord
    (Or.inl ⟨"c1, c2", rfl⟩) (Or.inr rfl)

/-- C10: when the canonical record's `Categories/Subjects` field is the
`"N/A"` sentinel, `create_notion_page` does not omit the tag collection:
the published `multi_select` is the single tag object `{"name": "N/A"}` —
the sentinel leaks into the remote database as a real category tag. -/
theorem c10_na_sentinel_category_tag (isbn : String) (g o : SourceRecord)
    (h : (merge_book_data isbn g o).lookup "Categories/Subjects" = some (.str "N/A")) :
    ∃ p, create_notion_page (merge_book_data isbn g o) = .ok p
      ∧ p.categoryTags = [.dict [("name", .str "N/A")]] := by
  have hs : pyOr g.categories (pyOr o.categories (.str "N/A")) = .str "N/A" := by
    have hl : (merge_book_data isbn g o).lookup "Categories/Subjects"
        = some (pyOr g.categories (pyOr o.categories (.str "N/A"))) := rfl
    rw [hl] at h
    exact Option.some.inj h
  exact ⟨_, create_notion_page_merge isbn g o "N/A" hs, rfl⟩

/-- Witness for C10: both sources lack categories, the sentinel becomes a
tag. -/
theorem c10_na_sentinel_category_tag_witness :
    ∃ p, create_notion_page (merge_book_data "0000000000000" emptyRecord emptyRecord) = .ok p
      ∧ p.categoryTags = [.dict [("name", .str "N/A")]] :=
  c10_na_sentinel_category_tag "0000000000000" emptyRecord emptyRecord rfl

/-! ### C7 -/

theorem asStrings_map_str (ns : List String) : asStrings (ns.map PyVal.str) = some ns := by
  induction ns with
  | nil => rfl
  | cons n rest ih => simp [asStrings, ih]

theorem namesOf_map_nameDict (ns : List String) :
    namesOf (ns.map fun n => PyVal.dict [("name", PyVal.str n)]) = .ok (ns.map PyVal.str) := by
  induction ns with
  | nil => rfl
  | cons n rest ih => simp [namesOf, pyGet, ih]

theorem olNames_strs (ns : List String) :
    olNames (.list (ns.map PyVal.str)) = .ok (.str (String.intercalate ", " ns)) := by
  cases ns with
  | nil => rfl
  | cons n rest =>
    have h1 := asStrings_map_str (n :: rest)
    rw [List.map_cons] at h1
    simp [olNames, pyTruthy, pySubscriptIdx, pyJoin, h1]

theorem olNames_nameDicts (ns : List String) :
    olNames (.list (ns.map fun n => PyVal.dict [("name", PyVal.str n)]))
      = .ok (.str (String.intercalate ", " ns)) := by
  cases ns with
  | nil => rfl
  | cons n rest =>
    have h2 := namesOf_map_nameDict (n :: rest)
    rw [List.map_cons] at h2
    have h1 := asStrings_map_str (n :: rest)
    rw [List.map_cons] at h1
    simp [olNames, pyTruthy, pySubscriptIdx, pyJoin, h2, h1, asStrings_map_str]

/-- C7: when the Open Library response carries the authors as a list of
plain strings or as a list of `{"name": ...}` objects,
`fetch_from_open_library` normalizes both shapes to the same flattened
comma-and-space-joined string — and likewise for the subjects field. -/
theorem c7_ol_shape_normalization (isbn : String) (ns ms : List String) :
    (fetch_from_open_library_scanner isbn (.resp 200 (.dict [("ISBN:" ++ isbn, .dict
        [("title", .str "T"), ("authors", .list (ns.map PyVal.str)), ("cover", .dict []),
          ("subjects", .list (ms.map PyVal.str)), ("number_of_pages", .int 100)])]))).result
      = .ok ⟨.str "T", .str (String.intercalate ", " ns), .none,
          .str (String.intercalate ", " ms), .int 100⟩
    ∧ (fetch_from_open_library_scanner isbn (.resp 200 (.dict [("ISBN:" ++ isbn, .dict
        [("title", .str "T"),
          ("authors", .list (ns.map fun n => PyVal.dict [("name", PyVal.str n)])),
          ("cover", .dict []),
          ("subjects", .list (ms.map fun n => PyVal.dict [("name", PyVal.str n)])),
          ("number_of_pages", .int 100)])]))).result
      = .ok ⟨.str "T", .str (String.intercalate ", " ns), .none,
          .str (String.intercalate ", " ms), .int 100⟩ := by
  constructor <;>
    simp [fetch_from_open_library_scanner, scanFetch, olExtract, pyContains,
      pySubscriptKey, pyGet, List.lookup, olNames_strs, olNames_nameDicts]

/-! ### C8 -/

/-- Counterexample to C8: the Google Books adapter already serializes the
authors list to the comma-and-space-joined STRING `"A, B"` before handing
the record to the reconciler (the record's `Authors` value is a string,
not an ordered sequence), and `merge_book_data` performs no serialization:
a hypothetical list-valued `Authors` field passes through the merge
unserialized. -/
theorem c8_adapters_serialize_before_merge :
    ((fetch_from_google_books_scanner (.resp 200 (.dict [("items", .list [.dict [("volumeInfo",
        .dict [("authors", .list [.str "A", .str "B"])])]])]))).result
      = .ok ⟨.none, .str "A, B", .none, .str "", .none⟩)
    ∧ ((merge_book_data "i" ⟨.none, .list [.str "A", .str "B"], .none, .none, .none⟩
        emptyRecord).lookup "Authors" = some (.list [.str "A", .str "B"])) :=
  ⟨rfl, rfl⟩

theorem pyJoin_ok_str (sep : String) (v w : PyVal) (h : pyJoin sep v = .ok w) :
    ∃ s, w = .str s := by
  cases v with
  | list xs =>
    have h2 : (match asStrings xs with
        | some ss => (.ok (.str (String.intercalate sep ss)) : Except PyErr PyVal)
        | Option.none => .error .typeError) = .ok w := h
    rcases ha : asStrings xs with _ | ss <;> rw [ha] at h2
    · exact absurd h2 (by simp)
    · exact ⟨_, (Except.ok.inj h2).symm⟩
  | str s => exact ⟨_, (Except.ok.inj h).symm⟩
  | dict kvs => exact ⟨_, (Except.ok.inj h).symm⟩
  | none => exact absurd h (by simp [pyJoin])
  | int n => exact absurd h (by simp [pyJoin])

theorem olNames_ok_str (v w : PyVal) (h : olNames v = .ok w) : ∃ s, w = .str s := by
  unfold olNames at h
  by_cases ht : pyTruthy v = true
  · rw [if_pos ht] at h
    rcases hidx : pySubscriptIdx v 0 with e | first <;> rw [hidx] at h
    · cases h
    · cases first with
      | dict d =>
        cases v with
        | list xs =>
          have h3 : (match namesOf xs with
              | .error e => (.error e : Except PyErr PyVal)
              | .ok names => pyJoin ", " (.list names)) = .ok w := h
          rcases hn : namesOf xs with e | names <;> rw [hn] at h3
          · exact absurd h3 (by simp)
          · exact pyJoin_ok_str _ _ _ h3
        | none => exact absurd h (by simp)
        | str s => exact absurd h (by simp)
        | int n => exact absurd h (by simp)
        | dict kvs => exact absurd h (by simp)
      | none => exact pyJoin_ok_str _ _ _ h
      | str s => exact pyJoin_ok_str _ _ _ h
      | int n => exact pyJoin_ok_str _ _ _ h
      | list l => exact pyJoin_ok_str _ _ _ h
  · rw [if_neg ht] at h
    exact pyJoin_ok_str _ _ _ h

theorem gbExtract_ok_some (data : PyVal) (r : SourceRecord)
    (h : gbExtract data = .ok (some r)) :
    (∃ s, r.authors = .str s) ∧ (∃ s, r.categories = .str s) := by
  unfold gbExtract at h
  repeat' split at h
  all_goals cases h
  all_goals exact ⟨pyJoin_ok_str _ _ _ (by assumption), pyJoin_ok_str _ _ _ (by assumption)⟩

theorem olExtract_ok_some (isbn : String) (data : PyVal) (r : SourceRecord)
    (h : olExtract isbn data = .ok (some r)) :
    (∃ s, r.authors = .str s) ∧ (∃ s, r.categories = .str s) := by
  unfold olExtract at h
  repeat' split at h
  all_goals cases h
  all_goals exact ⟨olNames_ok_str _ _ (by assumption), olNames_ok_str _ _ (by assumption)⟩

theorem scanFetch_result_ok (extract : PyVal → Except PyErr (Option SourceRecord))
    (o : NetOutcome) (r : SourceRecord) (h : (scanFetch extract o).result = .ok r) :
    r = emptyRecord ∨ ∃ body, extract body = .ok (some r) := by
  cases o with
  | exn => cases h
  | resp s b =>
    by_cases hs : (s == 200) = true
    · rcases hx : extract b with e | ro
      · have he : (scanFetch extract (.resp s b)).result = .error e := by
          simp [scanFetch, hs, hx]
        rw [he] at h
        cases h
      · cases ro with
        | none =>
          have he : (scanFetch extract (.resp s b)).result = .ok emptyRecord := by
            simp [scanFetch, hs, hx]
          rw [he] at h
          exact .inl (Except.ok.inj h).symm
        | some r' =>
          have he : (scanFetch extract (.resp s b)).result = .ok r' := by
            simp [scanFetch, hs, hx]
          rw [he] at h
          have := Except.ok.inj h
          subst this
          exact .inr ⟨b, hx⟩
    · have he : (scanFetch extract (.resp s b)).result = .ok emptyRecord := by
        simp [scanFetch, hs]
      rw [he] at h
      exact .inl (Except.ok.inj h).symm

theorem retryLoop_result_ok (extract : PyVal → Except PyErr (Option SourceRecord))
    (net : Nat → NetOutcome) :
    ∀ (fuel attempt : Nat) (r : SourceRecord),
      (retryLoop extract net attempt fuel).result = .ok r →
      r = emptyRecord ∨ ∃ body, extract body = .ok (some r) := by
  intro fuel
  induction fuel with
  | zero =>
    intro attempt r h
    exact .inl (Except.ok.inj h).symm
  | succ n ih =>
    intro attempt r h
    cases hnet : net attempt with
    | exn =>
      have he : (retryLoop extract net attempt (n + 1)).result
          = (retryLoop extract net (attempt + 1) n).result := by
        simp [retryLoop, hnet]
      rw [he] at h
      exact ih (attempt + 1) r h
    | resp s b =>
      by_cases hs : (s == 200) = true
      · rcases hx : extract b with e | ro
        · have he : (retryLoop extract net attempt (n + 1)).result = .error e := by
            simp [retryLoop, hnet, hs, hx]
          rw [he] at h
          cases h
        · cases ro with
          | none =>
            have he : (retryLoop extract net attempt (n + 1)).result = .ok emptyRecord := by
              simp [retryLoop, hnet, hs, hx]
            rw [he] at h
            exact .inl (Except.ok.inj h).symm
          | some r' =>
            have he : (retryLoop extract net attempt (n + 1)).result = .ok r' := by
              simp [retryLoop, hnet, hs, hx]
            rw [he] at h
            have := Except.ok.inj h
            subst this
            exact .inr ⟨b, hx⟩
      · have he : (retryLoop extract net attempt (n + 1)).result = .ok emptyRecord := by
          simp [retryLoop, hnet, hs]
        rw [he] at h
        exact .inl (Except.ok.inj h).symm

/-- C8 (amended): serialization of the authors/categories sequences into a
single comma-and-space-joined string happens inside the adapters, not in
the merge: every record an adapter hands to the reconciler already carries
`Authors` and `Categories` as a string (or `None` when the source had no
data), and `merge_book_data` performs no serialization — each merged field
is verbatim one of the two input values or the `"N/A"` sentinel. -/
theorem c8_amended_serialization_location :
    (∀ (o : NetOutcome) (r : SourceRecord),
      (fetch_from_google_books_scanner o).result = .ok r →
      ((∃ s, r.authors = .str s) ∨ r.authors = .none)
      ∧ ((∃ s, r.categories = .str s) ∨ r.categories = .none))
    ∧ (∀ (isbn : String) (o : NetOutcome) (r : SourceRecord),
      (fetch_from_open_library_scanner isbn o).result = .ok r →
      ((∃ s, r.authors = .str s) ∨ r.authors = .none)
      ∧ ((∃ s, r.categories = .str s) ∨ r.categories = .none))
    ∧ (∀ (net : Nat → NetOutcome) (r : SourceRecord),
      (fetch_from_google_books_loader net).result = .ok r →
      ((∃ s, r.authors = .str s) ∨ r.authors = .none)
      ∧ ((∃ s, r.categories = .str s) ∨ r.categories = .none))
    ∧ (∀ (isbn : String) (net : Nat → NetOutcome) (r : SourceRecord),
      (fetch_from_open_library_loader isbn net).result = .ok r →
      ((∃ s, r.authors = .str s) ∨ r.authors = .none)
      ∧ ((∃ s, r.categories = .str s) ∨ r.categories = .none))
    ∧ (∀ (isbn : String) (g o' : SourceRecord),
      (((merge_book_data isbn g o').lookup "Authors").getD .none = g.authors
        ∨ ((merge_book_data isbn g o').lookup "Authors").getD .none = o'.authors
        ∨ ((merge_book_data isbn g o').lookup "Authors").getD .none = .str "N/A")
      ∧ (((merge_book_data isbn g o').lookup "Categories/Subjects").getD .none = g.categories
        ∨ ((merge_book_data isbn g o').lookup "Categories/Subjects").getD .none = o'.categories
        ∨ ((merge_book_data isbn g o').lookup "Categories/Subjects").getD .none
            = .str "N/A")) := by
  refine ⟨fun o r h => ?_, fun isbn o r h => ?_, fun net r h => ?_, fun isbn net r h => ?_,
    fun isbn g o' => ?_⟩
  · rcases scanFetch_result_ok gbExtract o r h with he | ⟨body, hb⟩
    · subst he; exact ⟨.inr rfl, .inr rfl⟩
    · obtain ⟨ha, hc⟩ := gbExtract_ok_some body r hb
      exact ⟨.inl ha, .inl hc⟩
  · rcases scanFetch_result_ok (olExtract isbn) o r h with he | ⟨body, hb⟩
    · subst he; exact ⟨.inr rfl, .inr rfl⟩
    · obtain ⟨ha, hc⟩ := olExtract_ok_some isbn body r hb
      exact ⟨.inl ha, .inl hc⟩
  · rcases retryLoop_result_ok gbExtract net 3 0 r h with he | ⟨body, hb⟩
    · subst he; exact ⟨.inr rfl, .inr rfl⟩
    · obtain ⟨ha, hc⟩ := gbExtract_ok_some body r hb
      exact ⟨.inl ha, .inl hc⟩
  · rcases retryLoop_result_ok (olExtract isbn) net 3 0 r h with he | ⟨body, hb⟩
    · subst he; exact ⟨.inr rfl, .inr rfl⟩
    · obtain ⟨ha, hc⟩ := olExtract_ok_some isbn body r hb
      exact ⟨.inl ha, .inl hc⟩
  · constructor
    · have hl : ((merge_book_data isbn g o').lookup "Authors").getD .none
          = pyOr g.authors (pyOr o'.authors (.str "N/A")) := rfl
      rw [hl, pyOr_eq_specPrecedence]
      exact specPrecedence_cases g.authors o'.authors
    · have hl : ((merge_book_data isbn g o').lookup "Categories/Subjects").getD .none
          = pyOr g.categories (pyOr o'.categories (.str "N/A")) := rfl
      rw [hl, pyOr_eq_specPrecedence]
      exact specPrecedence_cases g.categories o'.categories

/-- Witness for the amended C8 at concrete adapter calls. -/
theorem c8_amended_serialization_location_witness :
    (((∃ s, emptyRecord.authors = .str s) ∨ emptyRecord.authors = .none)
      ∧ ((∃ s, emptyRecord.categories = .str s) ∨ emptyRecord.categories = .none))
    ∧ (((∃ s, emptyRecord.authors = .str s) ∨ emptyRecord.authors = .none)
      ∧ ((∃ s, emptyRecord.categories = .str s) ∨ emptyRecord.categories = .none))
    ∧ ((((merge_book_data "x" emptyRecord emptyRecord).lookup "Authors").getD .none
          = emptyRecord.authors
        ∨ ((merge_book_data "x" emptyRecord emptyRecord).lookup "Authors").getD .none
          = emptyRecord.authors
        ∨ ((merge_book_data "x" emptyRecord emptyRecord).lookup "Authors").getD .none
          = .str "N/A")) := by
  have h := c8_amended_serialization_location
  exact ⟨h.1 (.resp 404 .none) emptyRecord rfl,
    h.2.1 "x" (.resp 404 .none) emptyRecord rfl,
    (h.2.2.2.2 "x" emptyRecord emptyRecord).1⟩
